import Mathlib

/-!
Shallow embedding of `src/guard_fatigue_detection.py` (class `DrowsinessDetector`).

The per-frame alert state machine is modelled exactly as the source writes it:

* Wall-clock times and the fatigue score are rationals; every `time.time()`
  call inside the processing of one frame returns that frame's timestamp
  `now` (the frame loop is single-threaded and synchronous).
* A frame's input is either a detected face with its averaged EAR value, or
  no face (`results.multi_face_landmarks` empty).
* Side effects (beeps, stop-audio, CSV log events) are collected in an
  ordered effect list; the CSV file itself is modelled separately for the
  event-logger round-trip property.
-/

namespace Guard

/-- The four event kinds written by `_maybe_log_event`. -/
inductive EventKind
  | FATIGUE_ALERT
  | NO_FACE_ALERT
  | ALERT_CLEARED
  | ALERT_ESCALATED
deriving DecidableEq, Repr

/-- Observable side effects of processing one frame: `_play_beep`,
`_play_escalation_beep`, `_stop_audio` (`sd.stop()`), and a row appended by
`_maybe_log_event`. -/
inductive Effect
  | playBeep
  | playEscalationBeep
  | stopAudio
  | logEvent (ev : EventKind)
deriving DecidableEq, Repr

/-- Configuration attributes set in `DrowsinessDetector.__init__`.
`log_path` is `true` when a log path was supplied (`--log`). -/
structure Config where
  EAR_THRESH : ℚ
  CLOSED_EYES_FRAME : Nat
  beep_interval_seconds : ℚ
  fatigue_increase_per_frame : ℚ
  fatigue_decay_per_frame : ℚ
  fatigue_alert_threshold : ℚ
  guard_mode : Bool
  no_face_timeout_seconds : ℚ
  escalation_seconds : ℚ
  log_path : Bool
deriving DecidableEq, Repr

/-- The values hard-coded in `__init__`: `EAR_THRESH = 0.25`,
`CLOSED_EYES_FRAME = 20`, `beep_interval_seconds = 1.0`,
`fatigue_increase_per_frame = 2.0`, `fatigue_decay_per_frame = 1.0`,
`fatigue_alert_threshold = 60.0`, `no_face_timeout_seconds = 10.0`,
`escalation_seconds = 60.0`; guard mode off and no log path by default. -/
def defaultConfig : Config where
  EAR_THRESH := 1/4
  CLOSED_EYES_FRAME := 20
  beep_interval_seconds := 1
  fatigue_increase_per_frame := 2
  fatigue_decay_per_frame := 1
  fatigue_alert_threshold := 60
  guard_mode := false
  no_face_timeout_seconds := 10
  escalation_seconds := 60
  log_path := false

/-- The mutable per-frame state of `DrowsinessDetector`:
`counter`, `alert_active`, `last_beep_time`, `fatigue_score`,
`last_face_time`, `guard_alert_active`, `guard_escalated`. -/
structure DetectorState where
  counter : Nat
  alert_active : Bool
  last_beep_time : ℚ
  fatigue_score : ℚ
  last_face_time : ℚ
  guard_alert_active : Bool
  guard_escalated : Bool
deriving DecidableEq, Repr

/-- State after `__init__` at process-start time `t0`
(`last_face_time = time.time()` at construction, `last_beep_time = 0.0`). -/
def initState (t0 : ℚ) : DetectorState where
  counter := 0
  alert_active := false
  last_beep_time := 0
  fatigue_score := 0
  last_face_time := t0
  guard_alert_active := false
  guard_escalated := false

/-- `_maybe_log_event` as an effect: emits a log row only when a log path is
configured (the file write itself is modelled by `maybeLogEvent` below). -/
def maybeLogEffect (cfg : Config) (ev : EventKind) : List Effect :=
  if cfg.log_path then [Effect.logEvent ev] else []

/-- `_handle_audio_alert(active)`. Rising edge: mark active and zero the
throttle (`last_beep_time = 0.0`, forcing an immediate beep). Falling edge:
mark inactive and stop audio, returning before the cadence check. While
active: beep when `now - last_beep_time >= beep_interval_seconds`. -/
def handleAudioAlert (cfg : Config) (now : ℚ) (active : Bool)
    (s : DetectorState) : DetectorState × List Effect :=
  let s1 := if active && !s.alert_active then
      { s with alert_active := true, last_beep_time := 0 }
    else s
  if !active && s1.alert_active then
    ({ s1 with alert_active := false }, [Effect.stopAudio])
  else if s1.alert_active ∧ cfg.beep_interval_seconds ≤ now - s1.last_beep_time then
    ({ s1 with last_beep_time := now }, [Effect.playBeep])
  else
    (s1, [])

/-- `_handle_no_face`. Only acts in guard mode. Past the no-face timeout it
drives the audio alert active, logs `NO_FACE_ALERT`, and past the additional
escalation window it sets `guard_escalated` edge-triggered (logging
`ALERT_ESCALATED` once) and emits the escalation beep at cadence
`max(0.5, beep_interval_seconds / 2)`. Below the timeout it logs
`ALERT_CLEARED` when `alert_active or guard_alert_active`, clears both guard
flags and drives the audio alert inactive. -/
def handleNoFace (cfg : Config) (now : ℚ) (s : DetectorState) :
    DetectorState × List Effect :=
  if !cfg.guard_mode then (s, [])
  else
    let secondsSinceFace := now - s.last_face_time
    if cfg.no_face_timeout_seconds ≤ secondsSinceFace then
      let p1 := handleAudioAlert cfg now true s
      let e1 := p1.2 ++ maybeLogEffect cfg EventKind.NO_FACE_ALERT
      if cfg.no_face_timeout_seconds + cfg.escalation_seconds ≤ secondsSinceFace then
        let p2 :=
          if !p1.1.guard_escalated then
            ({ p1.1 with guard_escalated := true },
              maybeLogEffect cfg EventKind.ALERT_ESCALATED)
          else (p1.1, ([] : List Effect))
        if max (1/2 : ℚ) (cfg.beep_interval_seconds / 2) ≤ now - p2.1.last_beep_time then
          ({ p2.1 with last_beep_time := now },
            e1 ++ p2.2 ++ [Effect.playEscalationBeep])
        else (p2.1, e1 ++ p2.2)
      else (p1.1, e1)
    else
      let e0 := if s.alert_active || s.guard_alert_active then
          maybeLogEffect cfg EventKind.ALERT_CLEARED
        else []
      let s1 := { s with guard_escalated := false, guard_alert_active := false }
      let p := handleAudioAlert cfg now false s1
      (p.1, e0 ++ p.2)

/-- A frame's input after landmark extraction: a detected face with its
averaged EAR, or no detected face. -/
inductive FrameInput
  | face (ear : ℚ)
  | noFace
deriving DecidableEq, Repr

/-- `process_frame`. On a face frame: refresh `last_face_time`; if
`avg_ear < EAR_THRESH` increment `counter` and accumulate fatigue
(`min(100, fatigue_score + fatigue_increase_per_frame)`), then when
`counter >= CLOSED_EYES_FRAME or fatigue_score >= fatigue_alert_threshold`
drive the audio alert active and log `FATIGUE_ALERT`; otherwise reset
`counter`, decay fatigue (`max(0, fatigue_score - fatigue_decay_per_frame)`)
and drive the audio alert inactive. On a no-face frame: `_handle_no_face`. -/
def processFrame (cfg : Config) (now : ℚ) (inp : FrameInput)
    (s : DetectorState) : DetectorState × List Effect :=
  match inp with
  | FrameInput.face ear =>
    let s0 := { s with last_face_time := now }
    if ear < cfg.EAR_THRESH then
      let s1 := { s0 with
        counter := s0.counter + 1,
        fatigue_score := min 100 (s0.fatigue_score + cfg.fatigue_increase_per_frame) }
      if cfg.CLOSED_EYES_FRAME ≤ s1.counter ∨
          cfg.fatigue_alert_threshold ≤ s1.fatigue_score then
        let p := handleAudioAlert cfg now true s1
        (p.1, p.2 ++ maybeLogEffect cfg EventKind.FATIGUE_ALERT)
      else (s1, [])
    else
      let s1 := { s0 with
        counter := 0,
        fatigue_score := max 0 (s0.fatigue_score - cfg.fatigue_decay_per_frame) }
      handleAudioAlert cfg now false s1
  | FrameInput.noFace => handleNoFace cfg now s

/-- Run the frame loop over a list of timestamped frame inputs, concatenating
the effects in order. -/
def runFrames (cfg : Config) (s : DetectorState) :
    List (ℚ × FrameInput) → DetectorState × List Effect
  | [] => (s, [])
  | f :: rest =>
    let p := processFrame cfg f.1 f.2 s
    let q := runFrames cfg p.1 rest
    (q.1, p.2 ++ q.2)

/-- Number of occurrences of one effect in an effect list. -/
def countEffect (e : Effect) : List Effect → Nat
  | [] => 0
  | x :: xs => (if x = e then 1 else 0) + countEffect e xs

/-- The CSV file at the log path: `none` when the file does not exist,
otherwise the list of its rows (each row a list of fields). -/
def LogFile : Type := Option (List (List String))

/-- `_maybe_log_event(event)` acting on the CSV file: no-op without a log
path; otherwise append the row `[timestamp, event]`, writing the header row
`["timestamp", "event"]` first when the file did not yet exist. -/
def maybeLogEvent (logPath : Bool) (ts : String) (ev : String)
    (file : Option (List (List String))) : Option (List (List String)) :=
  if !logPath then file
  else
    match file with
    | none => some [["timestamp", "event"], [ts, ev]]
    | some rows => some (rows ++ [[ts, ev]])

/-- Append a list of `(timestamp, event)` rows via `_maybe_log_event` with a
log path configured. -/
def appendEvents (events : List (String × String))
    (file : Option (List (List String))) : Option (List (List String)) :=
  events.foldl (fun f te => maybeLogEvent true te.1 te.2 f) file

/-- The condition of the guard-clear branch (`_handle_no_face`, line 231):
`self.alert_active or self.guard_alert_active`. -/
def guardClearCondition (s : DetectorState) : Bool :=
  s.alert_active || s.guard_alert_active

/-- The fatigue alert condition checked in `process_frame`:
`counter >= CLOSED_EYES_FRAME or fatigue_score >= fatigue_alert_threshold`. -/
def fatigueAlertCondition (cfg : Config) (s : DetectorState) : Prop :=
  cfg.CLOSED_EYES_FRAME ≤ s.counter ∨
    cfg.fatigue_alert_threshold ≤ s.fatigue_score

instance (cfg : Config) (s : DetectorState) :
    Decidable (fatigueAlertCondition cfg s) := by
  unfold fatigueAlertCondition; infer_instance

/-- The configuration of a run started with `--guard --log <path>`. -/
def guardLogConfig : Config :=
  { defaultConfig with guard_mode := true, log_path := true }

/-! ### Helper lemmas -/

theorem handleAudioAlert_fst (cfg : Config) (now : ℚ) (a : Bool)
    (s : DetectorState) :
    (handleAudioAlert cfg now a s).1.counter = s.counter ∧
    (handleAudioAlert cfg now a s).1.fatigue_score = s.fatigue_score ∧
    (handleAudioAlert cfg now a s).1.last_face_time = s.last_face_time ∧
    (handleAudioAlert cfg now a s).1.guard_alert_active = s.guard_alert_active ∧
    (handleAudioAlert cfg now a s).1.guard_escalated = s.guard_escalated := by
  unfold handleAudioAlert
  split_ifs <;> simp_all <;> split_ifs <;> simp_all

theorem handleAudioAlert_no_log (cfg : Config) (now : ℚ) (a : Bool)
    (s : DetectorState) (ev : EventKind) :
    countEffect (Effect.logEvent ev) (handleAudioAlert cfg now a s).2 = 0 := by
  unfold handleAudioAlert
  split_ifs <;> simp_all [countEffect] <;> split_ifs <;> simp_all [countEffect]

theorem countEffect_append (e : Effect) (l1 l2 : List Effect) :
    countEffect e (l1 ++ l2) = countEffect e l1 + countEffect e l2 := by
  induction l1 with
  | nil => simp [countEffect]
  | cons x xs ih => simp [countEffect, ih]; omega

theorem handleNoFace_fst (cfg : Config) (now : ℚ) (s : DetectorState) :
    (handleNoFace cfg now s).1.counter = s.counter ∧
    (handleNoFace cfg now s).1.fatigue_score = s.fatigue_score ∧
    (handleNoFace cfg now s).1.last_face_time = s.last_face_time := by
  unfold handleNoFace
  split_ifs <;> simp_all [handleAudioAlert_fst] <;>
    split_ifs <;> simp_all [handleAudioAlert_fst]

theorem processFrame_guard_alert_false (cfg : Config) (now : ℚ)
    (inp : FrameInput) (s : DetectorState) (h : s.guard_alert_active = false) :
    (processFrame cfg now inp s).1.guard_alert_active = false := by
  cases inp with
  | face ear =>
    simp only [processFrame]
    split_ifs <;> simp_all [handleAudioAlert_fst]
  | noFace =>
    simp only [processFrame]
    unfold handleNoFace
    split_ifs <;> simp_all [handleAudioAlert_fst] <;>
      split_ifs <;> simp_all [handleAudioAlert_fst]

/-- C10: `guard_alert_active` is initialised to `false` in `__init__` and no
operation ever assigns it `true` (the only assignment, in `_handle_no_face`'s
clear branch, writes `false`), so it is `false` in every state reachable from
the initial state; hence the guard-clear condition
`alert_active or guard_alert_active` is equivalent to `alert_active` alone. -/
theorem guard_alert_active_always_false (cfg : Config) (t0 : ℚ)
    (frames : List (ℚ × FrameInput)) :
    (runFrames cfg (initState t0) frames).1.guard_alert_active = false ∧
    guardClearCondition (runFrames cfg (initState t0) frames).1 =
      (runFrames cfg (initState t0) frames).1.alert_active := by
  have key : ∀ (l : List (ℚ × FrameInput)) (s : DetectorState),
      s.guard_alert_active = false →
      (runFrames cfg s l).1.guard_alert_active = false := by
    intro l
    induction l with
    | nil => intro s h; exact h
    | cons f rest ih =>
      intro s h
      simp only [runFrames]
      exact ih _ (processFrame_guard_alert_false cfg f.1 f.2 s h)
  have h1 := key frames (initState t0) rfl
  refine ⟨h1, ?_⟩
  simp [guardClearCondition, h1]

/-- C1 counterexample: run `--guard --log`: face seen at t=0, no face at t=80
(the guard alert fires and escalates), face re-detected at t=81 with open
eyes, then no face again at t=82 (within the timeout). A guard alert was
raised and escalated in this episode (one `ALERT_ESCALATED`), yet after the
face was re-detected `guard_escalated` is still `true` (the face branch of
`process_frame` never resets it), and no `ALERT_CLEARED` is ever emitted —
not even on the t=82 clear-branch frame, because the open-eye face frame
already dropped `alert_active` and `guard_alert_active` is always `false`. -/
theorem face_redetect_no_alert_cleared_cex :
    countEffect (Effect.logEvent EventKind.ALERT_ESCALATED)
      (runFrames guardLogConfig (initState 0)
        [(0, FrameInput.face (3/10)), (80, FrameInput.noFace),
         (81, FrameInput.face (3/10)), (82, FrameInput.noFace)]).2 = 1 ∧
    (runFrames guardLogConfig (initState 0)
      [(0, FrameInput.face (3/10)), (80, FrameInput.noFace),
       (81, FrameInput.face (3/10))]).1.guard_escalated = true ∧
    countEffect (Effect.logEvent EventKind.ALERT_CLEARED)
      (runFrames guardLogConfig (initState 0)
        [(0, FrameInput.face (3/10)), (80, FrameInput.noFace),
         (81, FrameInput.face (3/10)), (82, FrameInput.noFace)]).2 = 0 := by
  norm_num [runFrames, processFrame, handleNoFace, handleAudioAlert,
    maybeLogEffect, guardLogConfig, defaultConfig, initState, countEffect]
  all_goals decide

/-- C2 counterexample: run `--guard --log`: face at t=0, no face at t=20 (the
no-face alert activates the audio alert), then the face re-detected at t=21
with closed eyes (EAR 0.1 < 0.25). On that face frame the fatigue alert
condition is false (`counter = 1 < 20` and `fatigue_score = 2 < 60`), but the
Audio Alert Controller is not driven with `active=false`: the alert stays
active and stop-playback is never requested in the whole run. -/
theorem condition_false_no_falling_edge_cex :
    (runFrames guardLogConfig (initState 0)
      [(0, FrameInput.face (3/10)), (20, FrameInput.noFace)]).1.alert_active
        = true ∧
    (runFrames guardLogConfig (initState 0)
      [(0, FrameInput.face (3/10)), (20, FrameInput.noFace),
       (21, FrameInput.face (1/10))]).1.counter = 1 ∧
    (runFrames guardLogConfig (initState 0)
      [(0, FrameInput.face (3/10)), (20, FrameInput.noFace),
       (21, FrameInput.face (1/10))]).1.fatigue_score = 2 ∧
    ¬ fatigueAlertCondition guardLogConfig
      (runFrames guardLogConfig (initState 0)
        [(0, FrameInput.face (3/10)), (20, FrameInput.noFace),
         (21, FrameInput.face (1/10))]).1 ∧
    (runFrames guardLogConfig (initState 0)
      [(0, FrameInput.face (3/10)), (20, FrameInput.noFace),
       (21, FrameInput.face (1/10))]).1.alert_active = true ∧
    countEffect Effect.stopAudio
      (runFrames guardLogConfig (initState 0)
        [(0, FrameInput.face (3/10)), (20, FrameInput.noFace),
         (21, FrameInput.face (1/10))]).2 = 0 := by
  norm_num [runFrames, processFrame, handleNoFace, handleAudioAlert,
    maybeLogEffect, guardLogConfig, defaultConfig, initState, countEffect,
    fatigueAlertCondition]
  all_goals decide

/-- C3 counterexample: run `--guard --log` started at t=0 with no face at
t=80 (the guard alert escalates on that frame) and no face again at t=82.
The t=82 frame is processed while the guard state is ESCALATED, yet it plays
the NORMAL beep (via `_handle_audio_alert(active=True)`, since
`82 - 80 >= beep_interval_seconds`) and no escalation tone at all (the shared
`last_beep_time` was just advanced, so the escalation cadence check fails). -/
theorem escalated_normal_beep_plays_cex :
    (runFrames guardLogConfig (initState 0)
      [(80, FrameInput.noFace)]).1.guard_escalated = true ∧
    countEffect Effect.playBeep
      (processFrame guardLogConfig 82 FrameInput.noFace
        (runFrames guardLogConfig (initState 0)
          [(80, FrameInput.noFace)]).1).2 = 1 ∧
    countEffect Effect.playEscalationBeep
      (processFrame guardLogConfig 82 FrameInput.noFace
        (runFrames guardLogConfig (initState 0)
          [(80, FrameInput.noFace)]).1).2 = 0 := by
  norm_num [runFrames, processFrame, handleNoFace, handleAudioAlert,
    maybeLogEffect, guardLogConfig, defaultConfig, initState, countEffect]
  all_goals decide

/-- C4 counterexample: with the default configuration, a rising edge of
`_handle_audio_alert` at t=10 from an inactive state, immediately followed by
a falling edge at t=10.5 (only 0.5 s later, less than the 1 s beep interval):
stop-playback is requested exactly once, but play is ALSO called exactly once
— the rising edge zeroes `last_beep_time`, so the cadence check
`now - last_beep_time >= beep_interval_seconds` fires on the very same frame. -/
theorem edge_pair_plays_beep_cex :
    (initState 0).alert_active = false ∧
    (21/2 : ℚ) - 10 < defaultConfig.beep_interval_seconds ∧
    countEffect Effect.stopAudio
      ((handleAudioAlert defaultConfig 10 true (initState 0)).2 ++
        (handleAudioAlert defaultConfig (21/2) false
          (handleAudioAlert defaultConfig 10 true (initState 0)).1).2) = 1 ∧
    countEffect Effect.playBeep
      ((handleAudioAlert defaultConfig 10 true (initState 0)).2 ++
        (handleAudioAlert defaultConfig (21/2) false
          (handleAudioAlert defaultConfig 10 true (initState 0)).1).2) = 1 := by
  norm_num [handleAudioAlert, defaultConfig, initState, countEffect]
  all_goals decide

/-- The default configuration with the closed-eye frame debounce raised to
40 and a log path supplied, as in the spec's numerical scenario. -/
def debounce40Config : Config :=
  { defaultConfig with CLOSED_EYES_FRAME := 40, log_path := true }

set_option maxRecDepth 8000 in
/-- C8: with `fatigue_increase_per_frame=2`, `fatigue_decay_per_frame=1`,
`fatigue_alert_threshold=60` (the source defaults) and the debounce raised to
`CLOSED_EYES_FRAME=40`, exactly 30 consecutive closed-eye frames from the
initial state yield `fatigue_score = 60` and trigger the fatigue alert via
the score branch of the OR (`60 >= 60`) while the frame-count branch has not
fired (`counter = 30 < 40`); after only 29 such frames (`score = 58`) no
alert has been emitted at all. -/
theorem score_path_fires_before_debounce :
    (runFrames debounce40Config (initState 0)
      (List.replicate 30 ((0 : ℚ), FrameInput.face (1/10)))).1.fatigue_score
        = 60 ∧
    (runFrames debounce40Config (initState 0)
      (List.replicate 30 ((0 : ℚ), FrameInput.face (1/10)))).1.counter = 30 ∧
    debounce40Config.fatigue_alert_threshold ≤
      (runFrames debounce40Config (initState 0)
        (List.replicate 30 ((0 : ℚ), FrameInput.face (1/10)))).1.fatigue_score ∧
    ¬ debounce40Config.CLOSED_EYES_FRAME ≤
        (runFrames debounce40Config (initState 0)
          (List.replicate 30 ((0 : ℚ), FrameInput.face (1/10)))).1.counter ∧
    countEffect (Effect.logEvent EventKind.FATIGUE_ALERT)
      (runFrames debounce40Config (initState 0)
        (List.replicate 30 ((0 : ℚ), FrameInput.face (1/10)))).2 = 1 ∧
    (runFrames debounce40Config (initState 0)
      (List.replicate 29 ((0 : ℚ), FrameInput.face (1/10)))).2 = [] := by
  norm_num [runFrames, processFrame, handleNoFace, handleAudioAlert,
    maybeLogEffect, debounce40Config, defaultConfig, initState, countEffect,
    List.replicate]

/-- C9 counterexample: appending N = 0 events to a log path whose file does
not initially exist produces no file at all (the header is only written when
the first event is logged), not a file with one header row and zero data
rows. -/
theorem append_zero_events_no_file_cex :
    appendEvents [] none = none ∧
    appendEvents [] none ≠ some [["timestamp", "event"]] := by
  constructor
  · rfl
  · intro h
    simp [appendEvents, List.foldl] at h

theorem appendEvents_some (events : List (String × String)) :
    ∀ rows : List (List String),
      appendEvents events (some rows) =
        some (rows ++ events.map fun te => [te.1, te.2]) := by
  induction events with
  | nil => intro rows; simp [appendEvents]
  | cons e rest ih =>
    intro rows
    have step : appendEvents (e :: rest) (some rows)
        = appendEvents rest (some (rows ++ [[e.1, e.2]])) := by
      simp [appendEvents, List.foldl, maybeLogEvent]
    rw [step, ih]
    simp

/-- C9 (amended to N >= 1): appending N >= 1 events via `_maybe_log_event`
to a log path whose file does not initially exist produces a file holding
exactly the header row `timestamp,event` followed by the N data rows in
order, each row having exactly two fields (the timestamp string and the
event kind string). (With N = 0 no file is created at all, see the
counterexample.) -/
theorem append_events_fresh_file (events : List (String × String))
    (h : events ≠ []) :
    appendEvents events none =
      some (["timestamp", "event"] :: events.map fun te => [te.1, te.2]) ∧
    (["timestamp", "event"] : List String).length = 2 ∧
    ∀ r ∈ events.map fun te => [te.1, te.2], r.length = 2 := by
  cases events with
  | nil => exact absurd rfl h
  | cons e rest =>
    refine ⟨?_, rfl, ?_⟩
    · have step : appendEvents (e :: rest) none
          = appendEvents rest (some [["timestamp", "event"], [e.1, e.2]]) := by
        simp [appendEvents, List.foldl, maybeLogEvent]
      rw [step, appendEvents_some]
      simp
    · intro r hr
      simp only [List.mem_map] at hr
      obtain ⟨te, -, hte⟩ := hr
      rw [← hte]
      rfl

theorem append_events_fresh_file_witness :
    (([(("2024-01-01 00:00:00" : String), ("FATIGUE_ALERT" : String))]) ≠
      ([] : List (String × String))) ∧
    appendEvents [("2024-01-01 00:00:00", "FATIGUE_ALERT")] none =
      some [["timestamp", "event"], ["2024-01-01 00:00:00", "FATIGUE_ALERT"]] := by
  refine ⟨by simp, ?_⟩
  have h := (append_events_fresh_file
    [("2024-01-01 00:00:00", "FATIGUE_ALERT")] (by simp)).1
  simpa using h

/-! ### Per-frame projection lemmas for the fatigue scorer -/

theorem processFrame_closed_counter (cfg : Config) (now e : ℚ)
    (s : DetectorState) (he : e < cfg.EAR_THRESH) :
    (processFrame cfg now (FrameInput.face e) s).1.counter = s.counter + 1 := by
  simp only [processFrame]
  split_ifs <;> simp_all [handleAudioAlert_fst]

theorem processFrame_closed_score (cfg : Config) (now e : ℚ)
    (s : DetectorState) (he : e < cfg.EAR_THRESH) :
    (processFrame cfg now (FrameInput.face e) s).1.fatigue_score =
      min 100 (s.fatigue_score + cfg.fatigue_increase_per_frame) := by
  simp only [processFrame]
  split_ifs <;> simp_all [handleAudioAlert_fst]

theorem processFrame_open_score (cfg : Config) (now e : ℚ)
    (s : DetectorState) (he : ¬ e < cfg.EAR_THRESH) :
    (processFrame cfg now (FrameInput.face e) s).1.fatigue_score =
      max 0 (s.fatigue_score - cfg.fatigue_decay_per_frame) := by
  simp only [processFrame]
  split_ifs <;> simp_all [handleAudioAlert_fst]

theorem closed_map_counter (cfg : Config) (e : ℚ) (he : e < cfg.EAR_THRESH) :
    ∀ (nows : List ℚ) (s : DetectorState),
      (runFrames cfg s (nows.map fun t => (t, FrameInput.face e))).1.counter
        = s.counter + nows.length := by
  intro nows
  induction nows with
  | nil => intro s; simp [runFrames]
  | cons t rest ih =>
    intro s
    simp only [List.map_cons, runFrames, List.length_cons]
    rw [ih, processFrame_closed_counter cfg t e s he]
    omega

/-- C7: for every EAR value `e` with `e < EAR_THRESH`, every starting state
(in particular every starting `fatigue_score`) and every sequence of at least
`CLOSED_EYES_FRAME` consecutive face-detected frames all reporting EAR `e`,
the fatigue alert condition
(`counter >= CLOSED_EYES_FRAME or fatigue_score >= fatigue_alert_threshold`)
is true on the last of those frames: the consecutive-closed-frame counter
alone has reached the debounce. -/
theorem closed_debounce_alert_condition (cfg : Config) (s : DetectorState)
    (e : ℚ) (nows : List ℚ)
    (he : e < cfg.EAR_THRESH)
    (hn : cfg.CLOSED_EYES_FRAME ≤ nows.length) :
    fatigueAlertCondition cfg
      (runFrames cfg s (nows.map fun t => (t, FrameInput.face e))).1 := by
  unfold fatigueAlertCondition
  left
  rw [closed_map_counter cfg e he nows s]
  omega

theorem closed_debounce_alert_condition_witness :
    ((1/10 : ℚ) < defaultConfig.EAR_THRESH) ∧
    defaultConfig.CLOSED_EYES_FRAME ≤ (List.replicate 20 (0 : ℚ)).length ∧
    fatigueAlertCondition defaultConfig
      (runFrames defaultConfig (initState 0)
        ((List.replicate 20 (0 : ℚ)).map fun t =>
          (t, FrameInput.face (1/10)))).1 := by
  have he : (1/10 : ℚ) < defaultConfig.EAR_THRESH := by
    norm_num [defaultConfig]
  have hn : defaultConfig.CLOSED_EYES_FRAME ≤
      (List.replicate 20 (0 : ℚ)).length := by
    simp [defaultConfig]
  exact ⟨he, hn,
    closed_debounce_alert_condition defaultConfig (initState 0) (1/10) _ he hn⟩

theorem closed_map_score (cfg : Config) (e : ℚ) (he : e < cfg.EAR_THRESH)
    (hinc : 0 ≤ cfg.fatigue_increase_per_frame) :
    ∀ (nows : List ℚ) (s : DetectorState), s.fatigue_score ≤ 100 →
      (runFrames cfg s (nows.map fun t => (t, FrameInput.face e))).1.fatigue_score
        = min 100 (s.fatigue_score + cfg.fatigue_increase_per_frame * nows.length) := by
  intro nows
  induction nows with
  | nil =>
    intro s hs
    simp only [List.map_nil, runFrames, List.length_nil, Nat.cast_zero, mul_zero,
      add_zero]
    exact (min_eq_right hs).symm
  | cons t rest ih =>
    intro s hs
    simp only [List.map_cons, runFrames, List.length_cons]
    have hs1 : (processFrame cfg t (FrameInput.face e) s).1.fatigue_score ≤ 100 := by
      rw [processFrame_closed_score cfg t e s he]
      exact min_le_left _ _
    rw [ih _ hs1, processFrame_closed_score cfg t e s he]
    have hlen : (0 : ℚ) ≤ cfg.fatigue_increase_per_frame * rest.length := by
      positivity
    rw [← min_add_add_right, ← min_assoc,
      min_eq_left (by linarith : (100 : ℚ) ≤ 100 + cfg.fatigue_increase_per_frame * rest.length)]
    congr 1
    push_cast
    ring

theorem open_map_score (cfg : Config) (e : ℚ) (he : ¬ e < cfg.EAR_THRESH)
    (hdec : 0 ≤ cfg.fatigue_decay_per_frame) :
    ∀ (nows : List ℚ) (s : DetectorState), 0 ≤ s.fatigue_score →
      (runFrames cfg s (nows.map fun t => (t, FrameInput.face e))).1.fatigue_score
        = max 0 (s.fatigue_score - cfg.fatigue_decay_per_frame * nows.length) := by
  intro nows
  induction nows with
  | nil =>
    intro s hs
    simp only [List.map_nil, runFrames, List.length_nil, Nat.cast_zero, mul_zero,
      sub_zero]
    exact (max_eq_right hs).symm
  | cons t rest ih =>
    intro s hs
    simp only [List.map_cons, runFrames, List.length_cons]
    have hs1 : 0 ≤ (processFrame cfg t (FrameInput.face e) s).1.fatigue_score := by
      rw [processFrame_open_score cfg t e s he]
      exact le_max_left _ _
    rw [ih _ hs1, processFrame_open_score cfg t e s he]
    have hlen : (0 : ℚ) ≤ cfg.fatigue_decay_per_frame * rest.length := by
      positivity
    rw [← max_sub_sub_right, ← max_assoc,
      max_eq_left (by linarith : 0 - cfg.fatigue_decay_per_frame * rest.length ≤ 0)]
    congr 1
    push_cast
    ring

/-- C6: the fatigue score stays in `[0, 100]` across every per-frame update
(face or no-face) whenever the increase and decay parameters are nonnegative,
as the source's are; with the source's parameters, any unbroken sequence of
at least 50 closed-eye frames (EAR below threshold) drives the score to
exactly 100 — and it stays at 100 on all longer such sequences — and any
unbroken sequence of at least 100 open-eye frames drives it to exactly 0 and
keeps it there, with no overshoot or undershoot. -/
theorem fatigue_score_bounds :
    (∀ (cfg : Config) (now : ℚ) (inp : FrameInput) (s : DetectorState),
      0 ≤ cfg.fatigue_increase_per_frame → 0 ≤ cfg.fatigue_decay_per_frame →
      0 ≤ s.fatigue_score → s.fatigue_score ≤ 100 →
      0 ≤ (processFrame cfg now inp s).1.fatigue_score ∧
        (processFrame cfg now inp s).1.fatigue_score ≤ 100) ∧
    (∀ (s : DetectorState) (e : ℚ) (nows : List ℚ),
      e < defaultConfig.EAR_THRESH → 0 ≤ s.fatigue_score →
      s.fatigue_score ≤ 100 → 50 ≤ nows.length →
      (runFrames defaultConfig s
        (nows.map fun t => (t, FrameInput.face e))).1.fatigue_score = 100) ∧
    (∀ (s : DetectorState) (e : ℚ) (nows : List ℚ),
      ¬ e < defaultConfig.EAR_THRESH → 0 ≤ s.fatigue_score →
      s.fatigue_score ≤ 100 → 100 ≤ nows.length →
      (runFrames defaultConfig s
        (nows.map fun t => (t, FrameInput.face e))).1.fatigue_score = 0) := by
  refine ⟨?_, ?_, ?_⟩
  · intro cfg now inp s hinc hdec h0 h1
    cases inp with
    | face e =>
      by_cases he : e < cfg.EAR_THRESH
      · rw [processFrame_closed_score cfg now e s he]
        constructor
        · exact le_min (by norm_num) (by linarith)
        · exact min_le_left _ _
      · rw [processFrame_open_score cfg now e s he]
        constructor
        · exact le_max_left _ _
        · exact max_le (by norm_num) (by linarith)
    | noFace =>
      have hp := (handleNoFace_fst cfg now s).2.1
      simp only [processFrame]
      rw [hp]
      exact ⟨h0, h1⟩
  · intro s e nows he h0 h1 hn
    have hinc : (0 : ℚ) ≤ defaultConfig.fatigue_increase_per_frame := by
      norm_num [defaultConfig]
    rw [closed_map_score defaultConfig e he hinc nows s h1]
    have hcast : (50 : ℚ) ≤ (nows.length : ℚ) := by exact_mod_cast hn
    have : (100 : ℚ) ≤ s.fatigue_score +
        defaultConfig.fatigue_increase_per_frame * nows.length := by
      have : defaultConfig.fatigue_increase_per_frame = 2 := rfl
      rw [this]
      linarith
    exact min_eq_left this
  · intro s e nows he h0 h1 hn
    have hdec : (0 : ℚ) ≤ defaultConfig.fatigue_decay_per_frame := by
      norm_num [defaultConfig]
    rw [open_map_score defaultConfig e he hdec nows s h0]
    have hcast : (100 : ℚ) ≤ (nows.length : ℚ) := by exact_mod_cast hn
    have : s.fatigue_score - defaultConfig.fatigue_decay_per_frame * nows.length
        ≤ 0 := by
      have : defaultConfig.fatigue_decay_per_frame = 1 := rfl
      rw [this]
      linarith
    exact max_eq_left this

theorem fatigue_score_bounds_witness :
    ((1/10 : ℚ) < defaultConfig.EAR_THRESH ∧
      0 ≤ (initState 0).fatigue_score ∧ (initState 0).fatigue_score ≤ 100 ∧
      50 ≤ (List.replicate 50 (0 : ℚ)).length) ∧
    (runFrames defaultConfig (initState 0)
      ((List.replicate 50 (0 : ℚ)).map fun t =>
        (t, FrameInput.face (1/10)))).1.fatigue_score = 100 := by
  have he : (1/10 : ℚ) < defaultConfig.EAR_THRESH := by norm_num [defaultConfig]
  have h0 : 0 ≤ (initState 0).fatigue_score := by norm_num [initState]
  have h1 : (initState 0).fatigue_score ≤ 100 := by norm_num [initState]
  have hn : 50 ≤ (List.replicate 50 (0 : ℚ)).length := by simp
  exact ⟨⟨he, h0, h1, hn⟩,
    fatigue_score_bounds.2.1 (initState 0) (1/10) _ he h0 h1 hn⟩

theorem handleAudioAlert_false_active (cfg : Config) (now : ℚ) (s : DetectorState) :
    (handleAudioAlert cfg now false s).1.alert_active = false := by
  unfold handleAudioAlert
  split_ifs <;> simp_all <;> split_ifs <;> simp_all

theorem handleAudioAlert_false_effects (cfg : Config) (now : ℚ) (s : DetectorState) :
    (handleAudioAlert cfg now false s).2 =
      (if s.alert_active then [Effect.stopAudio] else []) := by
  unfold handleAudioAlert
  split_ifs <;> simp_all <;> split_ifs <;> simp_all

theorem handleAudioAlert_true_active (cfg : Config) (now : ℚ) (s : DetectorState) :
    (handleAudioAlert cfg now true s).1.alert_active = true := by
  unfold handleAudioAlert
  split_ifs <;> simp_all <;> split_ifs <;> simp_all

theorem handleAudioAlert_true_effects (cfg : Config) (now : ℚ) (s : DetectorState) :
    (handleAudioAlert cfg now true s).2 = [] ∨
    (handleAudioAlert cfg now true s).2 = [Effect.playBeep] := by
  unfold handleAudioAlert
  split_ifs <;> simp_all <;> split_ifs <;> simp_all

theorem guard_timing_part1 (s : DetectorState) (now : ℚ)
    (h : now - s.last_face_time < 10) :
    countEffect (Effect.logEvent EventKind.NO_FACE_ALERT)
      (processFrame guardLogConfig now FrameInput.noFace s).2 = 0 ∧
    countEffect Effect.playBeep
      (processFrame guardLogConfig now FrameInput.noFace s).2 = 0 ∧
    countEffect Effect.playEscalationBeep
      (processFrame guardLogConfig now FrameInput.noFace s).2 = 0 ∧
    (processFrame guardLogConfig now FrameInput.noFace s).1.alert_active = false := by
  have h10 : guardLogConfig.no_face_timeout_seconds = 10 := rfl
  simp only [processFrame]
  unfold handleNoFace
  rw [h10]
  rw [if_neg (by simp [guardLogConfig, defaultConfig])]
  rw [if_neg (by linarith)]
  refine ⟨?_, ?_, ?_, ?_⟩ <;>
    simp [handleAudioAlert_false_effects, handleAudioAlert_false_active,
      countEffect, maybeLogEffect, guardLogConfig, defaultConfig] <;>
    split_ifs <;> simp [countEffect]

theorem maybeLogEffect_log (cfg : Config) (ev : EventKind)
    (h : cfg.log_path = true) :
    maybeLogEffect cfg ev = [Effect.logEvent ev] := by
  simp [maybeLogEffect, h]

theorem countEffect_singleton_ne (e x : Effect) (h : x ≠ e) :
    countEffect e [x] = 0 := by
  simp [countEffect, h]

theorem countEffect_singleton_eq (e : Effect) :
    countEffect e [e] = 1 := by
  simp [countEffect]

theorem guard_timing_part2 (s : DetectorState) (now : ℚ)
    (h1 : 10 ≤ now - s.last_face_time) (h2 : now - s.last_face_time < 70) :
    countEffect (Effect.logEvent EventKind.NO_FACE_ALERT)
      (processFrame guardLogConfig now FrameInput.noFace s).2 = 1 ∧
    (processFrame guardLogConfig now FrameInput.noFace s).1.alert_active = true ∧
    countEffect (Effect.logEvent EventKind.ALERT_ESCALATED)
      (processFrame guardLogConfig now FrameInput.noFace s).2 = 0 ∧
    (processFrame guardLogConfig now FrameInput.noFace s).1.guard_escalated
      = s.guard_escalated := by
  have h10 : guardLogConfig.no_face_timeout_seconds = 10 := rfl
  have h60 : guardLogConfig.escalation_seconds = 60 := rfl
  simp only [processFrame]
  unfold handleNoFace
  rw [h10, h60]
  rw [if_neg (by simp [guardLogConfig, defaultConfig])]
  rw [if_pos h1]
  rw [if_neg (by linarith)]
  rw [maybeLogEffect_log _ _ rfl]
  refine ⟨?_, handleAudioAlert_true_active _ _ _, ?_, (handleAudioAlert_fst _ _ _ _).2.2.2.2⟩
  · rw [countEffect_append, handleAudioAlert_no_log, countEffect_singleton_eq]
  · rw [countEffect_append, handleAudioAlert_no_log,
      countEffect_singleton_ne _ _ (by simp)]

theorem guard_timing_part3 (s : DetectorState) (now : ℚ)
    (h1 : 70 ≤ now - s.last_face_time) (h2 : s.guard_escalated = false) :
    (processFrame guardLogConfig now FrameInput.noFace s).1.guard_escalated = true ∧
    countEffect (Effect.logEvent EventKind.ALERT_ESCALATED)
      (processFrame guardLogConfig now FrameInput.noFace s).2 = 1 := by
  have h10 : guardLogConfig.no_face_timeout_seconds = 10 := rfl
  have h60 : guardLogConfig.escalation_seconds = 60 := rfl
  simp only [processFrame]
  unfold handleNoFace
  rw [h10, h60]
  rw [if_neg (by simp [guardLogConfig, defaultConfig])]
  rw [if_pos (by linarith)]
  rw [if_pos (by linarith)]
  have hesc : (handleAudioAlert guardLogConfig now true s).1.guard_escalated = false := by
    rw [(handleAudioAlert_fst guardLogConfig now true s).2.2.2.2]
    exact h2
  rw [maybeLogEffect_log _ _ rfl, maybeLogEffect_log _ _ rfl]
  simp only [hesc, Bool.not_false, if_true]
  split_ifs with hmax <;>
    refine ⟨by simp, ?_⟩ <;>
    simp only [countEffect_append, handleAudioAlert_no_log] <;>
    simp [countEffect]

theorem guard_timing_part4 (s : DetectorState) (now : ℚ)
    (h1 : 10 ≤ now - s.last_face_time) (h2 : s.guard_escalated = true) :
    (processFrame guardLogConfig now FrameInput.noFace s).1.guard_escalated = true ∧
    countEffect (Effect.logEvent EventKind.ALERT_ESCALATED)
      (processFrame guardLogConfig now FrameInput.noFace s).2 = 0 := by
  have h10 : guardLogConfig.no_face_timeout_seconds = 10 := rfl
  have h60 : guardLogConfig.escalation_seconds = 60 := rfl
  simp only [processFrame]
  unfold handleNoFace
  rw [h10, h60]
  rw [if_neg (by simp [guardLogConfig, defaultConfig])]
  rw [if_pos h1]
  have hesc : (handleAudioAlert guardLogConfig now true s).1.guard_escalated = true := by
    rw [(handleAudioAlert_fst guardLogConfig now true s).2.2.2.2]
    exact h2
  rw [maybeLogEffect_log _ _ rfl]
  by_cases hw : (10 : ℚ) + 60 ≤ now - s.last_face_time
  · rw [if_pos hw]
    simp only [hesc, Bool.not_true, if_false, Bool.false_eq_true]
    split_ifs with hmax <;>
      refine ⟨by simp [hesc], ?_⟩ <;>
      simp only [countEffect_append, handleAudioAlert_no_log] <;>
      simp [countEffect]
  · rw [if_neg hw]
    refine ⟨hesc, ?_⟩
    rw [countEffect_append, handleAudioAlert_no_log]
    simp [countEffect]

/-- C5: in guard mode with a log path (timeout 10 s, escalation window 60 s
as in the source): a no-face frame with `secondsSinceFace < 10` emits no
`NO_FACE_ALERT`, plays nothing and leaves the audio alert inactive; a no-face
frame with `10 <= secondsSinceFace` raises the alert (one `NO_FACE_ALERT`
row, audio active), with no escalation while `secondsSinceFace < 70`; on a
no-face frame with `70 <= secondsSinceFace` and `guard_escalated` still
false, `guard_escalated` flips to true and exactly one `ALERT_ESCALATED` row
is emitted; and on any alerting no-face frame processed with
`guard_escalated` already true it stays true and no further `ALERT_ESCALATED`
is emitted (edge-triggered, never re-triggered within the episode). -/
theorem guard_alert_timing (s : DetectorState) (now : ℚ) :
    (now - s.last_face_time < 10 →
      countEffect (Effect.logEvent EventKind.NO_FACE_ALERT)
        (processFrame guardLogConfig now FrameInput.noFace s).2 = 0 ∧
      countEffect Effect.playBeep
        (processFrame guardLogConfig now FrameInput.noFace s).2 = 0 ∧
      countEffect Effect.playEscalationBeep
        (processFrame guardLogConfig now FrameInput.noFace s).2 = 0 ∧
      (processFrame guardLogConfig now FrameInput.noFace s).1.alert_active
        = false) ∧
    (10 ≤ now - s.last_face_time → now - s.last_face_time < 70 →
      countEffect (Effect.logEvent EventKind.NO_FACE_ALERT)
        (processFrame guardLogConfig now FrameInput.noFace s).2 = 1 ∧
      (processFrame guardLogConfig now FrameInput.noFace s).1.alert_active
        = true ∧
      countEffect (Effect.logEvent EventKind.ALERT_ESCALATED)
        (processFrame guardLogConfig now FrameInput.noFace s).2 = 0 ∧
      (processFrame guardLogConfig now FrameInput.noFace s).1.guard_escalated
        = s.guard_escalated) ∧
    (70 ≤ now - s.last_face_time → s.guard_escalated = false →
      (processFrame guardLogConfig now FrameInput.noFace s).1.guard_escalated
        = true ∧
      countEffect (Effect.logEvent EventKind.ALERT_ESCALATED)
        (processFrame guardLogConfig now FrameInput.noFace s).2 = 1) ∧
    (10 ≤ now - s.last_face_time → s.guard_escalated = true →
      (processFrame guardLogConfig now FrameInput.noFace s).1.guard_escalated
        = true ∧
      countEffect (Effect.logEvent EventKind.ALERT_ESCALATED)
        (processFrame guardLogConfig now FrameInput.noFace s).2 = 0) :=
  ⟨fun h => guard_timing_part1 s now h,
   fun h1 h2 => guard_timing_part2 s now h1 h2,
   fun h1 h2 => guard_timing_part3 s now h1 h2,
   fun h1 h2 => guard_timing_part4 s now h1 h2⟩

theorem guard_alert_timing_witness :
    ((99/10 : ℚ) - (initState 0).last_face_time < 10 ∧
      (processFrame guardLogConfig (99/10) FrameInput.noFace
        (initState 0)).1.alert_active = false) ∧
    ((70 : ℚ) ≤ 70 - (initState 0).last_face_time ∧
      (initState 0).guard_escalated = false ∧
      (processFrame guardLogConfig 70 FrameInput.noFace
        (initState 0)).1.guard_escalated = true ∧
      countEffect (Effect.logEvent EventKind.ALERT_ESCALATED)
        (processFrame guardLogConfig 70 FrameInput.noFace
          (initState 0)).2 = 1) := by
  have ha : (99/10 : ℚ) - (initState 0).last_face_time < 10 := by
    norm_num [initState]
  have hb : (70 : ℚ) ≤ 70 - (initState 0).last_face_time := by
    norm_num [initState]
  have hc : (initState 0).guard_escalated = false := rfl
  have h3 := (guard_alert_timing (initState 0) 70).2.2.1 hb hc
  exact ⟨⟨ha, ((guard_alert_timing (initState 0) (99/10)).1 ha).2.2.2⟩,
         ⟨hb, hc, h3.1, h3.2⟩⟩

theorem countEffect_maybeLogEffect_ne (cfg : Config) (ev : EventKind)
    (e : Effect) (h : e ≠ Effect.logEvent ev) :
    countEffect e (maybeLogEffect cfg ev) = 0 := by
  unfold maybeLogEffect
  split_ifs <;> simp [countEffect, Ne.symm h]

theorem countEffect_log_maybeLogEffect_ne (cfg : Config) (ev ev2 : EventKind)
    (h : ev ≠ ev2) :
    countEffect (Effect.logEvent ev) (maybeLogEffect cfg ev2) = 0 := by
  apply countEffect_maybeLogEffect_ne
  simp [h]

/-- C1 (amended): re-detecting a face does not itself reset `guard_escalated`
or emit `ALERT_CLEARED` — the face branch of `process_frame` leaves
`guard_escalated` unchanged and never logs `ALERT_CLEARED`. The reset and
the (single) `ALERT_CLEARED` row happen instead on the next no-face frame
with `secondsSinceFace` below the timeout: that frame resets
`guard_escalated` and `alert_active` to false, and it emits exactly one
`ALERT_CLEARED` if the audio alert (or `guard_alert_active`) is still set
then — and none otherwise, e.g. when an open-eye face frame has already
dropped `alert_active`, so an episode can end with zero `ALERT_CLEARED`
rows. -/
theorem alert_cleared_on_clear_frame (cfg : Config) (s : DetectorState)
    (now : ℚ) (hg : cfg.guard_mode = true) (hl : cfg.log_path = true) :
    (∀ e : ℚ, (processFrame cfg now (FrameInput.face e) s).1.guard_escalated
        = s.guard_escalated ∧
      countEffect (Effect.logEvent EventKind.ALERT_CLEARED)
        (processFrame cfg now (FrameInput.face e) s).2 = 0) ∧
    (now - s.last_face_time < cfg.no_face_timeout_seconds →
      (processFrame cfg now FrameInput.noFace s).1.guard_escalated = false ∧
      (processFrame cfg now FrameInput.noFace s).1.alert_active = false ∧
      countEffect (Effect.logEvent EventKind.ALERT_CLEARED)
        (processFrame cfg now FrameInput.noFace s).2 =
        (if s.alert_active || s.guard_alert_active then 1 else 0)) := by
  constructor
  · intro e
    simp only [processFrame]
    split_ifs <;>
      simp [handleAudioAlert_fst, countEffect_append, handleAudioAlert_no_log,
        countEffect, countEffect_log_maybeLogEffect_ne,
        handleAudioAlert_false_effects] <;>
      split_ifs <;> simp [countEffect]
  · intro h
    simp only [processFrame]
    unfold handleNoFace
    rw [if_neg (by simp [hg])]
    rw [if_neg (by linarith)]
    refine ⟨(handleAudioAlert_fst _ _ _ _).2.2.2.2, handleAudioAlert_false_active _ _ _, ?_⟩
    rw [countEffect_append]
    rw [handleAudioAlert_false_effects]
    split_ifs <;>
      simp_all [countEffect, maybeLogEffect_log _ _ hl]

/-- A state in which a guard alert has just been raised (audio active,
escalated) and the face was re-seen at t=81: input for concrete witnesses. -/
def clearedWitnessState : DetectorState :=
  { initState 0 with
      alert_active := true
      guard_escalated := true
      last_face_time := 81 }

/-- The initial state with the audio alert active (as after a guard alert). -/
def activeInitState : DetectorState :=
  { initState 0 with alert_active := true }

theorem alert_cleared_on_clear_frame_witness :
    (guardLogConfig.guard_mode = true ∧ guardLogConfig.log_path = true ∧
      (82 : ℚ) - clearedWitnessState.last_face_time <
        guardLogConfig.no_face_timeout_seconds) ∧
    ((processFrame guardLogConfig 82 FrameInput.noFace
        clearedWitnessState).1.guard_escalated = false ∧
      (processFrame guardLogConfig 82 FrameInput.noFace
        clearedWitnessState).1.alert_active = false ∧
      countEffect (Effect.logEvent EventKind.ALERT_CLEARED)
        (processFrame guardLogConfig 82 FrameInput.noFace
          clearedWitnessState).2 = 1) := by
  have hg : guardLogConfig.guard_mode = true := rfl
  have hl : guardLogConfig.log_path = true := rfl
  have h : (82 : ℚ) - clearedWitnessState.last_face_time <
      guardLogConfig.no_face_timeout_seconds := by
    norm_num [clearedWitnessState, initState, guardLogConfig, defaultConfig]
  have hc := (alert_cleared_on_clear_frame guardLogConfig
    clearedWitnessState 82 hg hl).2 h
  refine ⟨⟨hg, hl, h⟩, hc.1, hc.2.1, ?_⟩
  rw [hc.2.2]
  simp [clearedWitnessState, initState]

/-- C2 (amended): the Fatigue Scorer drives the Audio Alert Controller with
`active=false` only on open-eye face frames (`EAR >= EAR_THRESH`), where a
previously active alert does take its falling edge (marked inactive,
stop-playback requested). On a closed-eye face frame whose fatigue alert
condition is false, the controller is not invoked at all: `alert_active`
keeps its previous value and no effect (in particular no stop-playback) is
produced on that frame. -/
theorem audio_drive_only_open_eye (cfg : Config) (s : DetectorState)
    (now ear : ℚ) :
    (¬ ear < cfg.EAR_THRESH →
      (processFrame cfg now (FrameInput.face ear) s).1.alert_active = false ∧
      (processFrame cfg now (FrameInput.face ear) s).2 =
        (if s.alert_active then [Effect.stopAudio] else [])) ∧
    (ear < cfg.EAR_THRESH →
      ¬ fatigueAlertCondition cfg
        (processFrame cfg now (FrameInput.face ear) s).1 →
      (processFrame cfg now (FrameInput.face ear) s).1.alert_active
        = s.alert_active ∧
      (processFrame cfg now (FrameInput.face ear) s).2 = []) := by
  constructor
  · intro he
    simp only [processFrame]
    rw [if_neg he]
    refine ⟨handleAudioAlert_false_active _ _ _, ?_⟩
    rw [handleAudioAlert_false_effects]
  · intro he hcond
    simp only [processFrame] at hcond ⊢
    rw [if_pos he] at hcond ⊢
    by_cases hc : cfg.CLOSED_EYES_FRAME ≤ s.counter + 1 ∨
        cfg.fatigue_alert_threshold ≤
          min 100 (s.fatigue_score + cfg.fatigue_increase_per_frame)
    · exfalso
      apply hcond
      rw [if_pos (by simpa using hc)]
      unfold fatigueAlertCondition
      rw [(handleAudioAlert_fst _ _ _ _).1,
        (handleAudioAlert_fst _ _ _ _).2.1]
      simpa using hc
    · rw [if_neg (by simpa using hc)]
      exact ⟨rfl, rfl⟩

theorem audio_drive_only_open_eye_witness :
    (¬ (3/10 : ℚ) < defaultConfig.EAR_THRESH ∧
      (processFrame defaultConfig 5 (FrameInput.face (3/10))
        activeInitState).1.alert_active = false ∧
      (processFrame defaultConfig 5 (FrameInput.face (3/10))
        activeInitState).2 = [Effect.stopAudio]) ∧
    ((1/10 : ℚ) < defaultConfig.EAR_THRESH ∧
      ¬ fatigueAlertCondition defaultConfig
        (processFrame defaultConfig 5 (FrameInput.face (1/10))
          activeInitState).1 ∧
      (processFrame defaultConfig 5 (FrameInput.face (1/10))
        activeInitState).1.alert_active = true ∧
      (processFrame defaultConfig 5 (FrameInput.face (1/10))
        activeInitState).2 = []) := by
  have he1 : ¬ (3/10 : ℚ) < defaultConfig.EAR_THRESH := by
    norm_num [defaultConfig]
  have he2 : (1/10 : ℚ) < defaultConfig.EAR_THRESH := by
    norm_num [defaultConfig]
  have hcond : ¬ fatigueAlertCondition defaultConfig
      (processFrame defaultConfig 5 (FrameInput.face (1/10))
        activeInitState).1 := by
    unfold fatigueAlertCondition
    norm_num [processFrame, handleAudioAlert, defaultConfig, initState,
      activeInitState]
  have h1 := (audio_drive_only_open_eye defaultConfig
    activeInitState 5 (3/10)).1 he1
  have h2 := (audio_drive_only_open_eye defaultConfig
    activeInitState 5 (1/10)).2 he2 hcond
  refine ⟨⟨he1, h1.1, ?_⟩, ⟨he2, hcond, ?_, h2.2⟩⟩
  · rw [h1.2]
    simp [activeInitState, initState]
  · rw [h2.1]
    rfl

theorem handleAudioAlert_true_of_active (cfg : Config) (now : ℚ)
    (s : DetectorState) (h : s.alert_active = true) :
    handleAudioAlert cfg now true s =
      if cfg.beep_interval_seconds ≤ now - s.last_beep_time
      then ({ s with last_beep_time := now }, [Effect.playBeep])
      else (s, []) := by
  unfold handleAudioAlert
  split_ifs <;> simp_all

/-- C3 (amended): on a frame processed while ESCALATED (with the audio alert
active), the escalation tone is emitted at the faster cadence
`max(0.5, beep_interval_seconds / 2)` only when the normal beep cadence has
not fired this frame; the normal beep is NOT replaced: whenever
`now - last_beep_time >= beep_interval_seconds` the normal beep still plays
(alone, advancing the shared throttle so the escalation tone is suppressed
that frame); when neither cadence has elapsed nothing plays. -/
theorem escalated_beep_cadence (cfg : Config) (s : DetectorState) (now : ℚ)
    (hg : cfg.guard_mode = true) (hesc : s.guard_escalated = true)
    (hact : s.alert_active = true) (hpos : 0 ≤ cfg.escalation_seconds)
    (htime : cfg.no_face_timeout_seconds + cfg.escalation_seconds ≤
      now - s.last_face_time) :
    (cfg.beep_interval_seconds ≤ now - s.last_beep_time →
      countEffect Effect.playBeep
        (processFrame cfg now FrameInput.noFace s).2 = 1 ∧
      countEffect Effect.playEscalationBeep
        (processFrame cfg now FrameInput.noFace s).2 = 0 ∧
      (processFrame cfg now FrameInput.noFace s).1.last_beep_time = now) ∧
    (¬ cfg.beep_interval_seconds ≤ now - s.last_beep_time →
      max (1/2 : ℚ) (cfg.beep_interval_seconds / 2) ≤ now - s.last_beep_time →
      countEffect Effect.playEscalationBeep
        (processFrame cfg now FrameInput.noFace s).2 = 1 ∧
      countEffect Effect.playBeep
        (processFrame cfg now FrameInput.noFace s).2 = 0 ∧
      (processFrame cfg now FrameInput.noFace s).1.last_beep_time = now) ∧
    (¬ cfg.beep_interval_seconds ≤ now - s.last_beep_time →
      ¬ max (1/2 : ℚ) (cfg.beep_interval_seconds / 2) ≤ now - s.last_beep_time →
      countEffect Effect.playBeep
        (processFrame cfg now FrameInput.noFace s).2 = 0 ∧
      countEffect Effect.playEscalationBeep
        (processFrame cfg now FrameInput.noFace s).2 = 0 ∧
      (processFrame cfg now FrameInput.noFace s).1.last_beep_time
        = s.last_beep_time) := by
  have hto : cfg.no_face_timeout_seconds ≤ now - s.last_face_time := by
    linarith
  simp only [processFrame]
  unfold handleNoFace
  rw [if_neg (by simp [hg])]
  rw [if_pos hto]
  rw [if_pos htime]
  rw [handleAudioAlert_true_of_active cfg now s hact]
  refine ⟨?_, ?_, ?_⟩
  · intro hbeep
    rw [if_pos hbeep]
    simp only [hesc, Bool.not_true, Bool.false_eq_true, if_false]
    split_ifs with hmax
    · exfalso
      have h12 : (1/2 : ℚ) ≤ max (1/2 : ℚ) (cfg.beep_interval_seconds / 2) :=
        le_max_left _ _
      linarith
    · refine ⟨?_, ?_, rfl⟩ <;>
        simp [countEffect_append, countEffect, countEffect_maybeLogEffect_ne]
  · intro hbeep hmax
    rw [if_neg hbeep]
    simp only [hesc, Bool.not_true, Bool.false_eq_true, if_false]
    split_ifs
    refine ⟨?_, ?_, rfl⟩ <;>
      simp [countEffect_append, countEffect, countEffect_maybeLogEffect_ne]
  · intro hbeep hmax
    rw [if_neg hbeep]
    simp only [hesc, Bool.not_true, Bool.false_eq_true, if_false]
    split_ifs
    refine ⟨?_, ?_, rfl⟩ <;>
      simp [countEffect_append, countEffect, countEffect_maybeLogEffect_ne]

/-- An escalated guard-alert state: audio active, `guard_escalated` set, the
last beep emitted at t=80, no face since t=0. -/
def escalatedWitnessState : DetectorState :=
  { initState 0 with
      alert_active := true
      guard_escalated := true
      last_beep_time := 80 }

theorem escalated_beep_cadence_witness :
    (guardLogConfig.guard_mode = true ∧
      escalatedWitnessState.guard_escalated = true ∧
      escalatedWitnessState.alert_active = true ∧
      (0 : ℚ) ≤ guardLogConfig.escalation_seconds ∧
      guardLogConfig.no_face_timeout_seconds + guardLogConfig.escalation_seconds ≤
        (81 : ℚ) - escalatedWitnessState.last_face_time ∧
      guardLogConfig.beep_interval_seconds ≤
        (81 : ℚ) - escalatedWitnessState.last_beep_time) ∧
    countEffect Effect.playBeep
      (processFrame guardLogConfig 81 FrameInput.noFace
        escalatedWitnessState).2 = 1 ∧
    countEffect Effect.playEscalationBeep
      (processFrame guardLogConfig 81 FrameInput.noFace
        escalatedWitnessState).2 = 0 := by
  have hg : guardLogConfig.guard_mode = true := rfl
  have he : escalatedWitnessState.guard_escalated = true := rfl
  have ha : escalatedWitnessState.alert_active = true := rfl
  have hp : (0 : ℚ) ≤ guardLogConfig.escalation_seconds := by
    norm_num [guardLogConfig, defaultConfig]
  have ht : guardLogConfig.no_face_timeout_seconds +
      guardLogConfig.escalation_seconds ≤
      (81 : ℚ) - escalatedWitnessState.last_face_time := by
    norm_num [guardLogConfig, defaultConfig, escalatedWitnessState, initState]
  have hb : guardLogConfig.beep_interval_seconds ≤
      (81 : ℚ) - escalatedWitnessState.last_beep_time := by
    norm_num [guardLogConfig, defaultConfig, escalatedWitnessState, initState]
  have hc := (escalated_beep_cadence guardLogConfig escalatedWitnessState 81
    hg he ha hp ht).1 hb
  exact ⟨⟨hg, he, ha, hp, ht, hb⟩, hc.1, hc.2.1⟩

theorem handleAudioAlert_rising (cfg : Config) (now : ℚ) (s : DetectorState)
    (h : s.alert_active = false) (hnow : cfg.beep_interval_seconds ≤ now) :
    handleAudioAlert cfg now true s =
      ({ s with alert_active := true, last_beep_time := now },
        [Effect.playBeep]) := by
  unfold handleAudioAlert
  simp [h, hnow]

/-- C4 (amended): a rising edge of `_handle_audio_alert` from an inactive
state immediately followed by a falling edge on the next frame, with less
than `beep_interval_seconds` elapsed between them, calls stop-playback
exactly once, and calls play exactly once rather than never: the rising edge
zeroes `last_beep_time`, so the cadence check fires on the rising-edge frame
itself (given a wall-clock `now` at or past the beep interval). -/
theorem edge_pair_stop_once_play_once (cfg : Config) (s : DetectorState)
    (now1 now2 : ℚ) (h0 : s.alert_active = false)
    (hi : cfg.beep_interval_seconds ≤ now1)
    (hlt : now2 - now1 < cfg.beep_interval_seconds) :
    (handleAudioAlert cfg now1 true s).2 = [Effect.playBeep] ∧
    (handleAudioAlert cfg now2 false
      (handleAudioAlert cfg now1 true s).1).2 = [Effect.stopAudio] ∧
    (handleAudioAlert cfg now2 false
      (handleAudioAlert cfg now1 true s).1).1.alert_active = false ∧
    countEffect Effect.stopAudio
      ((handleAudioAlert cfg now1 true s).2 ++
        (handleAudioAlert cfg now2 false
          (handleAudioAlert cfg now1 true s).1).2) = 1 ∧
    countEffect Effect.playBeep
      ((handleAudioAlert cfg now1 true s).2 ++
        (handleAudioAlert cfg now2 false
          (handleAudioAlert cfg now1 true s).1).2) = 1 := by
  rw [handleAudioAlert_rising cfg now1 s h0 hi]
  have hf := handleAudioAlert_false_effects cfg now2
    { s with alert_active := true, last_beep_time := now1 }
  have hfa := handleAudioAlert_false_active cfg now2
    { s with alert_active := true, last_beep_time := now1 }
  simp at hf
  refine ⟨rfl, hf, hfa, ?_, ?_⟩ <;>
    rw [countEffect_append, hf] <;>
    simp [countEffect]

theorem edge_pair_stop_once_play_once_witness :
    ((initState 0).alert_active = false ∧
      defaultConfig.beep_interval_seconds ≤ (10 : ℚ) ∧
      (21/2 : ℚ) - 10 < defaultConfig.beep_interval_seconds) ∧
    (handleAudioAlert defaultConfig 10 true (initState 0)).2
      = [Effect.playBeep] ∧
    (handleAudioAlert defaultConfig (21/2) false
      (handleAudioAlert defaultConfig 10 true (initState 0)).1).2
      = [Effect.stopAudio] ∧
    countEffect Effect.stopAudio
      ((handleAudioAlert defaultConfig 10 true (initState 0)).2 ++
        (handleAudioAlert defaultConfig (21/2) false
          (handleAudioAlert defaultConfig 10 true (initState 0)).1).2) = 1 := by
  have h0 : (initState 0).alert_active = false := rfl
  have hi : defaultConfig.beep_interval_seconds ≤ (10 : ℚ) := by
    norm_num [defaultConfig]
  have hlt : (21/2 : ℚ) - 10 < defaultConfig.beep_interval_seconds := by
    norm_num [defaultConfig]
  have hc := edge_pair_stop_once_play_once defaultConfig (initState 0)
    10 (21/2) h0 hi hlt
  exact ⟨⟨h0, hi, hlt⟩, hc.1, hc.2.1, hc.2.2.2.1⟩

end Guard
